import Mathlib

/-!
Shallow embedding of `src/app_caclculo_taxa_BTG.py` (class `CalculandoTaxadeGestao`),
a daily management-fee calculator.  Spreadsheet frames are modelled as lists of
typed rows; missing cells (pandas `NaN`) are modelled as `Option.none`; the float
arithmetic of the fee formulas is modelled over `ℝ` (and the structural parts of
the pipeline are stated generically over the cell type, which the code never
inspects).  The UI shell (streamlit calls) is out of scope: `st.error` only
reports, so an error branch is embedded as the state it leaves behind.
Row and column order of pandas joins/pivots is not modelled; none of the stated
properties depend on order.  Identifier accents are dropped (`Gestão` → `Gestao`).
-/

namespace BTG

/-- Calendar date as produced by `datetime.datetime`. -/
structure CalDate where
  year : Nat
  month : Nat
  day : Nat
deriving DecidableEq, Repr

/-- Gregorian leap-year rule used by Python's `datetime`. -/
def isLeapYear (y : Nat) : Bool :=
  y % 4 == 0 && (y % 100 != 0 || y % 400 == 0)

/-- Days in a month, as validated by Python's `datetime` constructors. -/
def daysInMonth (y m : Nat) : Nat :=
  match m with
  | 2 => if isLeapYear y then 29 else 28
  | 4 => 30
  | 6 => 30
  | 9 => 30
  | 11 => 30
  | _ => 31

/-- Validity check a `datetime.datetime(y, m, d)` construction performs
(both `strptime` and `replace` raise `ValueError` when it fails). -/
def validDate (y m d : Nat) : Bool :=
  decide (1 ≤ m ∧ m ≤ 12 ∧ 1 ≤ d ∧ d ≤ daysInMonth y m)

/-- Outcome of extracting the date tag from a snapshot file name
(lines 36-46 of the source: the regex search and the `strptime`/`replace` step). -/
inductive DateTagResult where
  | ok (d : CalDate)
  | invalidDateTag
  | missingDateTag
deriving DecidableEq, Repr

/-- Numeric value of an ASCII digit character. -/
def digitVal (c : Char) : Nat := c.toNat - 48

/-- Match of the regex `PL Total - (\d{2}\.\d{2})` anchored at the head of the
character list; returns the captured `(day, month)` pair. -/
def matchTagAt : List Char → Option (Nat × Nat)
  | 'P' :: 'L' :: ' ' :: 'T' :: 'o' :: 't' :: 'a' :: 'l' :: ' ' :: '-' :: ' ' ::
      d1 :: d2 :: '.' :: m1 :: m2 :: _ =>
    if d1.isDigit && d2.isDigit && m1.isDigit && m2.isDigit then
      some (10 * digitVal d1 + digitVal d2, 10 * digitVal m1 + digitVal m2)
    else
      none
  | _ => none

/-- `re.search` for the pattern: first position where the full pattern matches. -/
def findTag : List Char → Option (Nat × Nat)
  | [] => none
  | c :: rest =>
    match matchTagAt (c :: rest) with
    | some r => some r
    | none => findTag rest

/-- Date extraction of `load_pl_file` (source lines 36-46): regex search for
`PL Total - DD.MM`, then `datetime.strptime(date_str, %d.%m)` — which builds a
date in the default year 1900 and validates against it — then
`.replace(year=datetime.date.today().year)`, which re-validates in `year`.
Both `ValueError`s are caught by the same handler (`invalidDateTag`). -/
def extract_date (fileName : String) (year : Nat) : DateTagResult :=
  match findTag fileName.data with
  | none => .missingDateTag
  | some (d, m) =>
    if validDate 1900 m d then
      if validDate year m d then .ok ⟨year, m, d⟩ else .invalidDateTag
    else .invalidDateTag

/-- One row of an accumulated PL snapshot frame: columns `conta`, `VALOR`, `Data`
(source lines 48-51).  `conta` and `VALOR` may be missing cells; `Data` is set
uniformly from the extracted date, hence never null on a loaded row. -/
structure PlRow (α : Type) where
  conta : Option String
  VALOR : Option α
  Data : CalDate
deriving DecidableEq, Repr

/-- One row of a PL workbook as read from disk, before the date column is attached. -/
structure PlRawRow (α : Type) where
  conta : Option String
  VALOR : Option α
deriving DecidableEq, Repr

/-- Input to `load_pl_file`: the file name and the outcome of
`pd.read_excel` + column selection (`none` models any exception there,
caught by the outer handler of the source). -/
structure PlFileInput (α : Type) where
  fileName : String
  readData : Option (List (PlRawRow α))
deriving Repr

/-- `load_pl_file` (source lines 32-53), acting on the `pl_data` accumulator:
extract the date from the file name (skip the file on failure, leaving the
accumulator untouched), read the workbook (likewise skip on failure), attach
the date, append. -/
def load_pl_file {α : Type} (year : Nat) (pl_data : List (List (PlRow α)))
    (inp : PlFileInput α) : List (List (PlRow α)) :=
  match extract_date inp.fileName year with
  | .ok d =>
    match inp.readData with
    | none => pl_data
    | some rows => pl_data ++ [rows.map fun r => ⟨r.conta, r.VALOR, d⟩]
  | .invalidDateTag => pl_data
  | .missingDateTag => pl_data

/-- The upload loop of `main` (source lines 116-118): files are processed in
order, each through `load_pl_file`. -/
def load_pl_files {α : Type} (year : Nat) (pl_data : List (List (PlRow α)))
    (inps : List (PlFileInput α)) : List (List (PlRow α)) :=
  inps.foldl (load_pl_file year) pl_data

/-- One row of the control workbook's BTG sheet as read from disk: the raw
string form of the `Conta` cell (pandas `astype(str)` is applied before any
other use, so a string is the faithful representation) and the
`Taxa de Gestão` cell. -/
structure RawControlRow (α : Type) where
  Conta : String
  Taxa : Option α
deriving DecidableEq, Repr

/-- Account normalization of source line 18: Python `x[:-2]` (drop the last two
characters of the string form) then prepend `"00"`. -/
def normalizeConta (s : String) : String :=
  "00" ++ String.mk s.data.dropLast.dropLast

/-- The fixed override list of source lines 21-24. -/
def contas_3_zeros : List String :=
  ["00989247", "00938440", "00626491", "00806386",
   "00431814", "00827730", "00772433", "00834301", "00330949"]

/-- One row of the processed control table: columns `conta`,
`Taxa_de_Gestão` (source line 28 rename). -/
structure ControlRow (α : Type) where
  conta : String
  Taxa_de_Gestao : Option α
deriving DecidableEq, Repr

/-- The successful data path of `load_control_file` (source lines 16-28):
normalize `Conta`, keep the two columns, and concatenate below the base rows
one extra row — with one more leading `"0"` — for each base row whose
normalized account is in the override list. -/
def load_control_rows {α : Type} (rows : List (RawControlRow α)) :
    List (ControlRow α) :=
  let base : List (ControlRow α) :=
    rows.map fun r => ⟨normalizeConta r.Conta, r.Taxa⟩
  let contas_add_zero : List (ControlRow α) :=
    (base.filter fun r => contas_3_zeros.contains r.conta).map
      fun r => ⟨"0" ++ r.conta, r.Taxa_de_Gestao⟩
  base ++ contas_add_zero

/-- The control workbook as far as `load_control_file` reads it: whether the
columns it accesses exist, and the row data of those columns. -/
structure RawFrame (α : Type) where
  hasConta : Bool
  hasTaxa : Bool
  rows : List (RawControlRow α)
deriving Repr

/-- The dynamically-typed `self.planilha_controle` attribute: after a failed
mid-processing load it can hold a raw (or partially normalized) frame instead
of a processed table. -/
inductive ControlTable (α : Type) where
  | raw (f : RawFrame α)
  | processed (rows : List (ControlRow α))

/-- `load_control_file` (source lines 13-30) acting on the stored
`planilha_controle` attribute.  `inp = none` models `pd.read_excel` raising
(missing sheet / malformed workbook): the exception is caught and the
attribute keeps its prior value.  When the read succeeds the raw frame is
assigned to the attribute first (line 16); a missing `Conta` column then makes
line 18 raise, leaving the raw frame stored; a missing `Taxa de Gestão` column
makes line 19 raise after line 18 already normalized `Conta` in place, leaving
the partially normalized frame stored.  All exceptions are caught by the
handler on line 29 (`st.error`), so nothing propagates past the boundary. -/
def load_control_file {α : Type} (pc : Option (ControlTable α))
    (inp : Option (RawFrame α)) : Option (ControlTable α) :=
  match inp with
  | none => pc
  | some f =>
    if f.hasConta then
      if f.hasTaxa then
        some (.processed (load_control_rows f.rows))
      else
        some (.raw ⟨f.hasConta, f.hasTaxa,
          f.rows.map fun r => ⟨normalizeConta r.Conta, r.Taxa⟩⟩)
    else
      some (.raw f)

/-- The scalar operations `calculate_daily_fees` applies cell-wise.  The code
runs them on IEEE floats; the intended real-number semantics is `opsR` below.
The pipeline never inspects a scalar, so its structure is stated generically. -/
structure Ops (α : Type) where
  add : α → α → α
  sub : α → α → α
  mul : α → α → α
  div : α → α → α
  pow : α → α → α
  zero : α
  one : α
  hundred : α
  calculo_diario : α
  round2 : α → α

/-- Pandas element-wise binary arithmetic: `NaN` on either side gives `NaN`. -/
def optBin {α : Type} (f : α → α → α) : Option α → Option α → Option α
  | some a, some b => some (f a b)
  | _, _ => none

/-- A row of the merged frame `tx_gestao` after column selection and
`dropna(subset=[conta])` is yet to run (source line 71): outer join of the
control table and the combined PL rows on `conta`. -/
structure MergedRow (α : Type) where
  conta : Option String
  Taxa_de_Gestao : Option α
  VALOR : Option α
  Data : Option CalDate
deriving DecidableEq, Repr

/-- `pd.merge(..., on=conta, how=outer)` (source line 71): every control row is
paired with every PL row sharing its account (or kept alone with null PL fields
when none matches), and PL rows whose account matches no control row are kept
with null control fields.  Key order/sorting of pandas is not modelled. -/
def mergeOuter {α : Type} (ctrl : List (ControlRow α)) (pl : List (PlRow α)) :
    List (MergedRow α) :=
  (ctrl.flatMap fun c =>
    let ms := pl.filter fun p => p.conta == some c.conta
    if ms.isEmpty then
      [⟨some c.conta, c.Taxa_de_Gestao, none, none⟩]
    else
      ms.map fun p => ⟨some c.conta, c.Taxa_de_Gestao, p.VALOR, some p.Data⟩)
  ++ ((pl.filter fun p => !(ctrl.any fun c => some c.conta == p.conta)).map
      fun p => ⟨p.conta, none, p.VALOR, some p.Data⟩)

/-- Two-digit zero padding of `strftime`. -/
def pad2 (n : Nat) : String :=
  if n < 10 then "0" ++ toString n else toString n

/-- `strftime(%d.%m)` (source line 79). -/
def formatDM (d : CalDate) : String :=
  pad2 d.day ++ "." ++ pad2 d.month

/-- The `Tx_Gestão_Diaria` column (source line 75):
`((Taxa_de_Gestão + 1) ** calculo_diario - 1) * 100`, element-wise with
`NaN` propagation. -/
def txDiariaCell {α : Type} (ops : Ops α) (taxa : Option α) : Option α :=
  optBin ops.mul
    (optBin ops.sub
      (optBin ops.pow (optBin ops.add taxa (some ops.one)) (some ops.calculo_diario))
      (some ops.one))
    (some ops.hundred)

/-- The `Valor_de_cobrança` column (source line 76):
`round(VALOR * Tx_Gestão_Diaria / 100, 2)`, element-wise; `round` maps
`NaN` to `NaN`. -/
def valorCobrancaCell {α : Type} (ops : Ops α) (valor tx : Option α) : Option α :=
  (optBin ops.div (optBin ops.mul valor tx) (some ops.hundred)).map ops.round2

/-- A row of `tx_gestao` after source lines 71-79: join fields, the two
computed columns, and the date formatted as a `DD.MM` string (null for rows
with no snapshot date). -/
structure FeeRow (α : Type) where
  conta : Option String
  Taxa_de_Gestao : Option α
  VALOR : Option α
  Tx_Gestao_Diaria : Option α
  Valor_de_cobranca : Option α
  Data : Option String
deriving DecidableEq, Repr

/-- Source lines 71-79: merge, select columns, `dropna(subset=[conta])`,
compute the daily-rate and fee columns, format the date. -/
def feeRows {α : Type} (ops : Ops α) (ctrl : List (ControlRow α))
    (pl : List (PlRow α)) : List (FeeRow α) :=
  ((mergeOuter ctrl pl).filter fun m => m.conta.isSome).map fun m =>
    let tx := txDiariaCell ops m.Taxa_de_Gestao
    ⟨m.conta, m.Taxa_de_Gestao, m.VALOR, tx,
      valorCobrancaCell ops m.VALOR tx, m.Data.map formatDM⟩

/-- The rows `pivot_table` actually groups: its `groupby` on
`(conta, Data)` drops rows with a null key (pandas `dropna=True`). -/
def pivotSource {α : Type} (rows : List (FeeRow α)) : List (FeeRow α) :=
  rows.filter fun r => r.conta.isSome && r.Data.isSome

/-- The pivot's index: the distinct non-null accounts among grouped rows. -/
def reportIndex {α : Type} (rows : List (FeeRow α)) : List String :=
  ((pivotSource rows).filterMap fun r => r.conta).dedup

/-- The pivot's date columns: the distinct formatted dates among grouped rows. -/
def reportDateCols {α : Type} (rows : List (FeeRow α)) : List String :=
  ((pivotSource rows).filterMap fun r => r.Data).dedup

/-- One pivot cell: for an existing `(conta, Data)` group, the sum of the
group's fee amounts with `NaN` skipped (pandas `sum`, `min_count=0`: an
all-`NaN` group sums to zero); a group absent from the data is a null cell
after unstacking. -/
def pivotCell {α : Type} (ops : Ops α) (rows : List (FeeRow α))
    (c d : String) : Option α :=
  let g := (pivotSource rows).filter fun r => r.conta == some c && r.Data == some d
  if g.isEmpty then none
  else some ((g.filterMap fun r => r.Valor_de_cobranca).foldl ops.add ops.zero)

/-- A row of the final report: the account, its date-column cells, and the
`Total` column (source lines 90-91): row-wise sum of the numeric (date)
columns with `NaN` skipped, rounded to 2 decimals. -/
structure ReportRow (α : Type) where
  conta : String
  cells : List (Option α)
  total : α

/-- The final wide report (source lines 82-91). -/
structure Report (α : Type) where
  dateCols : List String
  rows : List (ReportRow α)

/-- Source lines 82-91: pivot `Valor_de_cobrança` by account × formatted date
with `aggfunc=sum`, then append the `Total` column. -/
def feeReport {α : Type} (ops : Ops α) (ctrl : List (ControlRow α))
    (pl : List (PlRow α)) : Report α :=
  let rows := feeRows ops ctrl pl
  let cols := reportDateCols rows
  { dateCols := cols
    rows := (reportIndex rows).map fun c =>
      let cells := cols.map fun d => pivotCell ops rows c d
      ⟨c, cells, ops.round2 ((cells.filterMap id).foldl ops.add ops.zero)⟩ }

/-- The session state the engine reads: the processed control table (or `none`
when never successfully loaded) and the accumulated PL frames. -/
structure CalcState (α : Type) where
  planilha_controle : Option (List (ControlRow α))
  pl_data : List (List (PlRow α))

/-- `calculate_daily_fees` (source lines 55-93).  The guard of lines 57-64
returns `None` (with an `st.error` message — the "no result" sentinel) when the
control table is unset or empty or no PL frame was accumulated; the
`isinstance` test of line 59 always holds in this typed state.  Otherwise the
PL frames are concatenated (`ignore_index` concat = flatten) and the report is
built. -/
def calculate_daily_fees {α : Type} (ops : Ops α) (s : CalcState α) :
    Option (Report α) :=
  match s.planilha_controle with
  | none => none
  | some ctrl =>
    if ctrl.isEmpty || s.pl_data.isEmpty then none
    else some (feeReport ops ctrl s.pl_data.flatten)

/-- `calculate_daily_fees` as a state transformer on the session: the method
reads `self.planilha_controle` and `self.pl_data` and assigns to neither, so
the resulting session state is the input state. -/
def calculate_daily_fees_run {α : Type} (ops : Ops α) (s : CalcState α) :
    Option (Report α) × CalcState α :=
  (calculate_daily_fees ops s, s)

/-- `calculo_diario = 1/252` (source line 69) over the reals. -/
noncomputable def calculoDiario : ℝ := 1 / 252

/-- The daily-rate formula of source line 75 over the reals:
`((annual + 1) ** (1/252) - 1) * 100` with real exponentiation. -/
noncomputable def dailyRate (r : ℝ) : ℝ :=
  ((r + 1) ^ calculoDiario - 1) * 100

/-- Python's `round(x, 2)` idealized over the reals: round half to even at the
second decimal place. -/
noncomputable def pyround2 (x : ℝ) : ℝ :=
  ((if Int.fract (x * 100) = (1 : ℝ) / 2 then
      (if Even ⌊x * 100⌋ then ⌊x * 100⌋ else ⌊x * 100⌋ + 1)
    else round (x * 100) : ℤ) : ℝ) / 100

/-- The real-number instantiation of the engine's scalar operations, as the
source computes them (float arithmetic idealized over `ℝ`). -/
noncomputable def opsR : Ops ℝ :=
  ⟨fun a b => a + b, fun a b => a - b, fun a b => a * b, fun a b => a / b,
   fun a b => a ^ b, 0, 1, 100, calculoDiario, pyround2⟩

/-! ## Helper lemmas -/

/-- A file whose date tag is invalid or missing leaves the accumulator untouched. -/
theorem load_pl_file_skip {α : Type} (y : Nat) (pl_data : List (List (PlRow α)))
    (inp : PlFileInput α)
    (h : extract_date inp.fileName y = .invalidDateTag ∨
         extract_date inp.fileName y = .missingDateTag) :
    load_pl_file y pl_data inp = pl_data := by
  rcases h with h | h <;> simp [load_pl_file, h]

/-! ## Claim theorems -/

/-- C5 counterexample: the claim promises the sentinel whenever "no snapshot
row exists", but the guard of source line 62 checks `len(self.pl_data) == 0` —
the number of accumulated frames, not rows.  Loading one snapshot workbook
with a valid date tag and zero data rows appends an empty frame, giving the
reachable state `pl_data = [[]]`: it contains no snapshot row, yet
`calculate_daily_fees` passes the guard, runs the join/pivot and returns a
report instead of the sentinel. -/
theorem compute_insufficient_input_cex :
    (([[]] : List (List (PlRow ℝ))).flatten = [])
    ∧ load_pl_file 2026 ([] : List (List (PlRow ℝ)))
        ⟨"PL Total - 01.03.xlsx", some []⟩ = [[]]
    ∧ calculate_daily_fees opsR ⟨some [⟨"00000123", some 2⟩], [[]]⟩ ≠ none := by
  refine ⟨rfl, rfl, ?_⟩
  simp [calculate_daily_fees, List.isEmpty]

/-- C5 amended: `calculate_daily_fees` returns the `none` sentinel (the code's
`None` return accompanied by the `st.error` insufficient-input message) and
builds no report whenever the control table is unset or empty or zero snapshot
frames have been accumulated — the guard counts accumulated frames, not
snapshot rows; in particular a session with zero loaded snapshot files gets
the sentinel rather than an exception.  When the control table is non-empty
and at least one frame was accumulated — even an empty frame holding no
snapshot row — the guard passes and the join/pivot report is returned. -/
theorem compute_insufficient_frames {α : Type} (ops : Ops α) (s : CalcState α) :
    (s.planilha_controle = none ∨ s.planilha_controle = some [] ∨
        s.pl_data = [] →
      calculate_daily_fees ops s = none)
    ∧ (∀ ctrl : List (ControlRow α),
        s.planilha_controle = some ctrl → ctrl ≠ [] → s.pl_data ≠ [] →
        calculate_daily_fees ops s
          = some (feeReport ops ctrl s.pl_data.flatten)) := by
  constructor
  · intro h
    rcases h with h | h | h <;> simp [calculate_daily_fees, h]
    cases hc : s.planilha_controle <;> simp
  · intro ctrl h1 h2 h3
    simp [calculate_daily_fees, h1, List.isEmpty_iff, h2, h3]

theorem compute_insufficient_frames_witness :
    calculate_daily_fees opsR ⟨none, []⟩ = none
    ∧ calculate_daily_fees opsR ⟨some [⟨"00000123", some 1⟩], []⟩ = none
    ∧ calculate_daily_fees opsR ⟨some [⟨"00000123", some 2⟩], [[]]⟩
        = some (feeReport opsR [⟨"00000123", some 2⟩]
            ([[]] : List (List (PlRow ℝ))).flatten) :=
  ⟨(compute_insufficient_frames opsR ⟨none, []⟩).1 (Or.inl rfl),
   (compute_insufficient_frames opsR ⟨some [⟨"00000123", some 1⟩], []⟩).1
     (Or.inr (Or.inr rfl)),
   (compute_insufficient_frames opsR ⟨some [⟨"00000123", some 2⟩], [[]]⟩).2
     [⟨"00000123", some 2⟩] rfl (List.cons_ne_nil _ _) (List.cons_ne_nil _ _)⟩

/-- C9: `calculate_daily_fees` does not mutate the session: run as a state
transformer it returns the session unchanged alongside the computed report,
and re-running it on the resulting session yields the same report. -/
theorem compute_no_mutation {α : Type} (ops : Ops α) (s : CalcState α) :
    calculate_daily_fees_run ops s = (calculate_daily_fees ops s, s)
    ∧ (calculate_daily_fees_run ops s).2.planilha_controle = s.planilha_controle
    ∧ (calculate_daily_fees_run ops s).2.pl_data = s.pl_data
    ∧ (calculate_daily_fees_run ops ((calculate_daily_fees_run ops s).2)).1
        = (calculate_daily_fees_run ops s).1 :=
  ⟨rfl, rfl, rfl, rfl⟩

/-- C6: date extraction from a file name: `PL Total - 31.07.xlsx` yields
day 31, month 7 and the current processing year; `PL Total - 31.02.xlsx`
fails as an invalid date; `report.xlsx` fails with the missing-tag error; in
both failure cases the file is skipped (nothing is appended to the
accumulator) and the upload loop continues with the remaining files. -/
theorem date_tag_extraction :
    (∀ y : Nat, extract_date "PL Total - 31.07.xlsx" y = .ok ⟨y, 7, 31⟩)
    ∧ (∀ y : Nat, extract_date "PL Total - 31.02.xlsx" y = .invalidDateTag)
    ∧ (∀ y : Nat, extract_date "report.xlsx" y = .missingDateTag)
    ∧ (∀ {α : Type} (y : Nat) (pl_data : List (List (PlRow α)))
        (inp : PlFileInput α),
        extract_date inp.fileName y = .invalidDateTag ∨
          extract_date inp.fileName y = .missingDateTag →
        load_pl_file y pl_data inp = pl_data)
    ∧ (∀ {α : Type} (y : Nat) (pl_data : List (List (PlRow α)))
        (bad : PlFileInput α) (pre post : List (PlFileInput α)),
        extract_date bad.fileName y = .invalidDateTag ∨
          extract_date bad.fileName y = .missingDateTag →
        load_pl_files y pl_data (pre ++ bad :: post)
          = load_pl_files y pl_data (pre ++ post)) := by
  refine ⟨fun y => rfl, fun y => rfl, fun y => rfl,
    fun y pl_data inp h => load_pl_file_skip y pl_data inp h,
    fun y pl_data bad pre post h => ?_⟩
  simp [load_pl_files, List.foldl_append, load_pl_file_skip y _ bad h]

theorem date_tag_extraction_witness :
    extract_date "PL Total - 31.07.xlsx" 2026 = .ok ⟨2026, 7, 31⟩
    ∧ extract_date "PL Total - 31.02.xlsx" 2026 = .invalidDateTag
    ∧ extract_date "report.xlsx" 2026 = .missingDateTag
    ∧ load_pl_file 2026 ([] : List (List (PlRow ℝ)))
        ⟨"PL Total - 31.02.xlsx", none⟩ = []
    ∧ load_pl_files 2026 ([] : List (List (PlRow ℝ)))
        ([] ++ ⟨"report.xlsx", none⟩ :: [⟨"PL Total - 31.07.xlsx", none⟩])
        = load_pl_files 2026 [] ([] ++ [⟨"PL Total - 31.07.xlsx", none⟩]) :=
  ⟨date_tag_extraction.1 2026, date_tag_extraction.2.1 2026,
   date_tag_extraction.2.2.1 2026,
   date_tag_extraction.2.2.2.1 2026 [] ⟨"PL Total - 31.02.xlsx", none⟩
     (Or.inl rfl),
   date_tag_extraction.2.2.2.2 2026 [] ⟨"report.xlsx", none⟩ []
     [⟨"PL Total - 31.07.xlsx", none⟩] (Or.inr rfl)⟩

/-- C10: for every processing year — leap years included — a file name whose
date tag reads `29.02` is rejected as an invalid date and never appended to
the accumulator: `strptime(%d.%m)` validates the day/month pair in its
implicit default year 1900, which is not a leap year, before the current year
is substituted. -/
theorem feb29_always_rejected (y : Nat) (fn : String)
    (h : findTag fn.data = some (29, 2)) :
    extract_date fn y = .invalidDateTag
    ∧ ∀ {α : Type} (pl_data : List (List (PlRow α)))
        (rd : Option (List (PlRawRow α))),
        load_pl_file y pl_data ⟨fn, rd⟩ = pl_data := by
  have hx : extract_date fn y = .invalidDateTag := by
    simp [extract_date, h, validDate, daysInMonth, isLeapYear]
  exact ⟨hx, fun pl_data rd => by simp [load_pl_file, hx]⟩

theorem feb29_always_rejected_witness :
    extract_date "PL Total - 29.02.xlsx" 2024 = .invalidDateTag
    ∧ load_pl_file 2024 ([] : List (List (PlRow ℝ)))
        ⟨"PL Total - 29.02.xlsx", none⟩ = [] :=
  ⟨(feb29_always_rejected 2024 "PL Total - 29.02.xlsx" rfl).1,
   (feb29_always_rejected 2024 "PL Total - 29.02.xlsx" rfl).2 [] none⟩

/-- C7: a single control row whose normalized account is in the fixed override
list of 9 identifiers produces two rows — the normalized form and that form
with one extra leading zero — while any other row produces exactly one row;
and in a full table every row yields its normalized form, plus the
extra-padded form when the account is in the override list. -/
theorem control_override_duplication :
    (∀ {α : Type} (r : RawControlRow α),
      load_control_rows [r] =
        if contas_3_zeros.contains (normalizeConta r.Conta) then
          [⟨normalizeConta r.Conta, r.Taxa⟩,
           ⟨"0" ++ normalizeConta r.Conta, r.Taxa⟩]
        else
          [⟨normalizeConta r.Conta, r.Taxa⟩])
    ∧ (∀ {α : Type} (rows : List (RawControlRow α)) (r : RawControlRow α),
        r ∈ rows →
        (⟨normalizeConta r.Conta, r.Taxa⟩ : ControlRow α)
            ∈ load_control_rows rows
        ∧ (contas_3_zeros.contains (normalizeConta r.Conta) = true →
           (⟨"0" ++ normalizeConta r.Conta, r.Taxa⟩ : ControlRow α)
              ∈ load_control_rows rows)) := by
  constructor
  · intro α r
    by_cases h : normalizeConta r.Conta ∈ contas_3_zeros <;>
      simp [load_control_rows, List.filter, h]
  · intro α rows r hr
    have hbase : (⟨normalizeConta r.Conta, r.Taxa⟩ : ControlRow α)
        ∈ rows.map fun r => (⟨normalizeConta r.Conta, r.Taxa⟩ : ControlRow α) :=
      List.mem_map.mpr ⟨r, hr, rfl⟩
    refine ⟨?_, fun hc => ?_⟩
    · exact List.mem_append.mpr (Or.inl hbase)
    · refine List.mem_append.mpr (Or.inr ?_)
      exact List.mem_map.mpr
        ⟨⟨normalizeConta r.Conta, r.Taxa⟩,
         List.mem_filter.mpr ⟨hbase, by simpa using hc⟩, rfl⟩

theorem control_override_duplication_witness :
    load_control_rows [(⟨"989247.0", none⟩ : RawControlRow ℝ)] =
      [⟨"00989247", none⟩, ⟨"000989247", none⟩]
    ∧ load_control_rows [(⟨"123456.0", none⟩ : RawControlRow ℝ)] =
      [⟨"00123456", none⟩]
    ∧ (⟨"000989247", none⟩ : ControlRow ℝ)
        ∈ load_control_rows [(⟨"989247.0", none⟩ : RawControlRow ℝ)] :=
  ⟨control_override_duplication.1 ⟨"989247.0", none⟩,
   control_override_duplication.1 ⟨"123456.0", none⟩,
   (control_override_duplication.2 [⟨"989247.0", none⟩] ⟨"989247.0", none⟩
      (List.mem_singleton.mpr rfl)).2 rfl⟩

/-- C8 counterexample: the claim says that on every failing input the stored
reference table is unchanged from before the call; but when the workbook read
succeeds and the `Conta` column is missing, the raw frame assigned on source
line 16 stays stored: starting from an unset table (`none`), the attribute is
no longer `none` after the failing call. -/
theorem reference_loader_unchanged_cex :
    @load_control_file ℝ none (some ⟨false, true, []⟩) ≠ none := by
  simp [load_control_file]

/-- C8 amended: no exception propagates past `load_control_file`, and the
stored table is unchanged when the workbook read itself fails; but when the
read succeeds and a required column is missing, the raw frame (with `Conta`
already normalized in place when only `Taxa de Gestão` is missing) remains
stored — the table is not left empty/unset. -/
theorem reference_loader_error_state {α : Type} (pc : Option (ControlTable α))
    (f : RawFrame α) :
    (load_control_file pc none = pc)
    ∧ (f.hasConta = false → load_control_file pc (some f) = some (.raw f))
    ∧ (f.hasConta = true → f.hasTaxa = false →
        load_control_file pc (some f) =
          some (.raw ⟨true, false,
            f.rows.map fun r => ⟨normalizeConta r.Conta, r.Taxa⟩⟩))
    ∧ (f.hasConta = true → f.hasTaxa = true →
        load_control_file pc (some f) =
          some (.processed (load_control_rows f.rows))) := by
  refine ⟨rfl, fun h1 => ?_, fun h1 h2 => ?_, fun h1 h2 => ?_⟩ <;>
    simp [load_control_file, h1]
  · simp [h2]
  · simp [h2]

theorem reference_loader_error_state_witness :
    @load_control_file ℝ none none = none
    ∧ @load_control_file ℝ none (some ⟨false, true, []⟩)
        = some (.raw ⟨false, true, []⟩)
    ∧ @load_control_file ℝ none (some ⟨true, true, [⟨"989247.0", none⟩]⟩)
        = some (.processed (load_control_rows [⟨"989247.0", none⟩])) :=
  ⟨(reference_loader_error_state none ⟨false, true, []⟩).1,
   (reference_loader_error_state none ⟨false, true, []⟩).2.1 rfl,
   (reference_loader_error_state none ⟨true, true, [⟨"989247.0", none⟩]⟩).2.2.2
     rfl rfl⟩

/-- Skipping the nulls of a row when summing is the same as summing with
nulls read as zero. -/
theorem filterMap_id_sum_getD (l : List (Option ℝ)) :
    (l.filterMap id).sum = (l.map fun c => c.getD 0).sum := by
  induction l with
  | nil => rfl
  | cons a t ih => cases a <;> simp [List.filterMap_cons, ih]

/-- Every row of the joined frame carries the two computed columns of source
lines 75-76 applied to its own operand cells. -/
theorem feeRow_fields {α : Type} (ops : Ops α) (ctrl : List (ControlRow α))
    (pl : List (PlRow α)) (fr : FeeRow α) (h : fr ∈ feeRows ops ctrl pl) :
    fr.Tx_Gestao_Diaria = txDiariaCell ops fr.Taxa_de_Gestao
    ∧ fr.Valor_de_cobranca
        = valorCobrancaCell ops fr.VALOR fr.Tx_Gestao_Diaria := by
  obtain ⟨m, hm, rfl⟩ := List.mem_map.mp h
  exact ⟨rfl, rfl⟩

/-- Every row of the final report carries the `Total` of source lines 90-91:
the row-wise null-skipping sum of its cells, rounded. -/
theorem reportRow_fields {α : Type} (ops : Ops α) (ctrl : List (ControlRow α))
    (pl : List (PlRow α)) (rr : ReportRow α)
    (h : rr ∈ (feeReport ops ctrl pl).rows) :
    rr.total = ops.round2 ((rr.cells.filterMap id).foldl ops.add ops.zero) := by
  obtain ⟨c, hc, rfl⟩ := List.mem_map.mp h
  rfl

/-- C1: in every joined row the daily rate column holds
`((annual_rate + 1) ** (1/252) - 1) * 100` applied to that row's annual rate
(null stays null); the formula sends `0` to `0` and `1` to
`(2 ** (1/252) - 1) * 100`. -/
theorem daily_rate_formula :
    (∀ (ctrl : List (ControlRow ℝ)) (pl : List (PlRow ℝ))
        (i : Fin (feeRows opsR ctrl pl).length),
      ((feeRows opsR ctrl pl).get i).Tx_Gestao_Diaria
        = ((feeRows opsR ctrl pl).get i).Taxa_de_Gestao.map dailyRate)
    ∧ (∀ r : ℝ, dailyRate r = ((r + 1) ^ ((1 : ℝ) / 252) - 1) * 100)
    ∧ dailyRate 0 = 0
    ∧ dailyRate 1 = ((2 : ℝ) ^ ((1 : ℝ) / 252) - 1) * 100 := by
  refine ⟨fun ctrl pl i => ?_, fun r => rfl, ?_, ?_⟩
  · have h := (feeRow_fields opsR ctrl pl _
      (List.get_mem (feeRows opsR ctrl pl) i i.isLt)).1
    rw [h]
    cases ht : ((feeRows opsR ctrl pl).get i).Taxa_de_Gestao <;>
      simp [txDiariaCell, optBin, opsR, dailyRate, ht]
  · simp [dailyRate, calculoDiario, Real.one_rpow]
  · norm_num [dailyRate, calculoDiario]

/-- C2: in every joined row the fee column holds
`round(VALOR * Tx_Gestão_Diaria / 100, 2)` when both operands are present,
and is null as soon as the value or the daily-rate operand is null. -/
theorem fee_amount_formula :
    ∀ (ctrl : List (ControlRow ℝ)) (pl : List (PlRow ℝ))
      (i : Fin (feeRows opsR ctrl pl).length),
      ((feeRows opsR ctrl pl).get i).Valor_de_cobranca
        = match ((feeRows opsR ctrl pl).get i).VALOR,
                ((feeRows opsR ctrl pl).get i).Tx_Gestao_Diaria with
          | some v, some t => some (pyround2 (v * t / 100))
          | _, _ => none := by
  intro ctrl pl i
  have h := (feeRow_fields opsR ctrl pl _
    (List.get_mem (feeRows opsR ctrl pl) i i.isLt)).2
  rw [h]
  cases hv : ((feeRows opsR ctrl pl).get i).VALOR <;>
    cases ht : ((feeRows opsR ctrl pl).get i).Tx_Gestao_Diaria <;>
    simp [valorCobrancaCell, optBin, opsR, hv, ht]

/-- C4: in the returned report, every account row's `Total` column is the sum
of that row's date-column cells — null cells counting as zero — rounded to 2
decimal places. -/
theorem report_total_column :
    ∀ (ctrl : List (ControlRow ℝ)) (pl : List (PlRow ℝ))
      (i : Fin (feeReport opsR ctrl pl).rows.length),
      ((feeReport opsR ctrl pl).rows.get i).total
        = pyround2 ((((feeReport opsR ctrl pl).rows.get i).cells.map
            fun c => c.getD 0).sum) := by
  intro ctrl pl i
  have h := reportRow_fields opsR ctrl pl _
    (List.get_mem (feeReport opsR ctrl pl).rows i i.isLt)
  rw [h]
  exact congrArg pyround2
    (List.sum_eq_foldl.symm.trans
      (filterMap_id_sum_getD (((feeReport opsR ctrl pl).rows.get i).cells)))

/-- An account is among the non-null contas of the rows the pivot groups
exactly when it is the conta of some combined snapshot row: matched and
snapshot-only accounts come with a date key, while reference-only accounts
carry a null date and are dropped by the grouping. -/
theorem mem_pivot_conta_iff {α : Type} (ops : Ops α)
    (ctrl : List (ControlRow α)) (pl : List (PlRow α)) (c : String) :
    c ∈ (pivotSource (feeRows ops ctrl pl)).filterMap (fun r => r.conta)
      ↔ c ∈ pl.filterMap PlRow.conta := by
  constructor
  · intro h
    obtain ⟨r, hr, hc⟩ := List.mem_filterMap.mp h
    obtain ⟨hr1, hr2⟩ := List.mem_filter.mp hr
    obtain ⟨m, hm, rfl⟩ := List.mem_map.mp hr1
    obtain ⟨hm1, _⟩ := List.mem_filter.mp hm
    simp only [Bool.and_eq_true, Option.isSome_map] at hr2
    obtain ⟨dd, hdd⟩ := Option.isSome_iff_exists.mp hr2.2
    rcases List.mem_append.mp hm1 with hL | hR
    · obtain ⟨c₀, hc₀, hmm⟩ := List.mem_flatMap.mp hL
      by_cases he : (pl.filter fun p => p.conta == some c₀.conta).isEmpty
      · simp only [if_pos he, List.mem_singleton] at hmm
        subst hmm
        simp at hdd
      · simp only [if_neg he] at hmm
        obtain ⟨p, hp, rfl⟩ := List.mem_map.mp hmm
        obtain ⟨hp1, hp2⟩ := List.mem_filter.mp hp
        refine List.mem_filterMap.mpr ⟨p, hp1, ?_⟩
        rw [beq_iff_eq] at hp2
        simpa [hp2] using hc
    · obtain ⟨p, hp, rfl⟩ := List.mem_map.mp hR
      exact List.mem_filterMap.mpr ⟨p, (List.mem_filter.mp hp).1, hc⟩
  · intro h
    obtain ⟨p, hp, hpc⟩ := List.mem_filterMap.mp h
    by_cases hex : ∃ c₀ ∈ ctrl, c₀.conta = c
    · obtain ⟨c₀, hc₀, hcc⟩ := hex
      have hpms : p ∈ pl.filter fun q => q.conta == some c₀.conta :=
        List.mem_filter.mpr ⟨hp, by simp [hpc, hcc]⟩
      have hne : (pl.filter fun q => q.conta == some c₀.conta).isEmpty = false := by
        rcases hE : (pl.filter fun q => q.conta == some c₀.conta) with _ | ⟨a, t⟩
        · rw [hE] at hpms; exact absurd hpms (List.not_mem_nil p)
        · rw [hE]; rfl
      have hmmerge :
          (⟨some c₀.conta, c₀.Taxa_de_Gestao, p.VALOR, some p.Data⟩ : MergedRow α)
            ∈ mergeOuter ctrl pl := by
        refine List.mem_append.mpr (Or.inl (List.mem_flatMap.mpr ⟨c₀, hc₀, ?_⟩))
        rw [if_neg (by simp [hne])]
        exact List.mem_map.mpr ⟨p, hpms, rfl⟩
      have hmf :
          (⟨some c₀.conta, c₀.Taxa_de_Gestao, p.VALOR, some p.Data⟩ : MergedRow α)
            ∈ (mergeOuter ctrl pl).filter fun m => m.conta.isSome :=
        List.mem_filter.mpr ⟨hmmerge, rfl⟩
      have hfee : (⟨some c₀.conta, c₀.Taxa_de_Gestao, p.VALOR,
          txDiariaCell ops c₀.Taxa_de_Gestao,
          valorCobrancaCell ops p.VALOR (txDiariaCell ops c₀.Taxa_de_Gestao),
          (some p.Data).map formatDM⟩ : FeeRow α) ∈ feeRows ops ctrl pl :=
        List.mem_map.mpr ⟨_, hmf, rfl⟩
      have hps : (⟨some c₀.conta, c₀.Taxa_de_Gestao, p.VALOR,
          txDiariaCell ops c₀.Taxa_de_Gestao,
          valorCobrancaCell ops p.VALOR (txDiariaCell ops c₀.Taxa_de_Gestao),
          (some p.Data).map formatDM⟩ : FeeRow α)
            ∈ pivotSource (feeRows ops ctrl pl) :=
        List.mem_filter.mpr ⟨hfee, rfl⟩
      exact List.mem_filterMap.mpr ⟨_, hps, by simp [hcc]⟩
    · push_neg at hex
      have hponly : p ∈ pl.filter fun q =>
          !(ctrl.any fun c₀ => some c₀.conta == q.conta) := by
        refine List.mem_filter.mpr ⟨hp, ?_⟩
        simp only [Bool.not_eq_true', List.any_eq_false, beq_iff_eq, hpc]
        intro c₀ hc₀ hbad
        exact hex c₀ hc₀ (Option.some_injective _ hbad)
      have hmmerge : (⟨p.conta, none, p.VALOR, some p.Data⟩ : MergedRow α)
          ∈ mergeOuter ctrl pl :=
        List.mem_append.mpr (Or.inr (List.mem_map.mpr ⟨p, hponly, rfl⟩))
      have hmf : (⟨p.conta, none, p.VALOR, some p.Data⟩ : MergedRow α)
          ∈ (mergeOuter ctrl pl).filter fun m => m.conta.isSome :=
        List.mem_filter.mpr ⟨hmmerge, by simp [hpc]⟩
      have hfee : (⟨p.conta, none, p.VALOR, txDiariaCell ops none,
          valorCobrancaCell ops p.VALOR (txDiariaCell ops none),
          (some p.Data).map formatDM⟩ : FeeRow α) ∈ feeRows ops ctrl pl :=
        List.mem_map.mpr ⟨_, hmf, rfl⟩
      have hps : (⟨p.conta, none, p.VALOR, txDiariaCell ops none,
          valorCobrancaCell ops p.VALOR (txDiariaCell ops none),
          (some p.Data).map formatDM⟩ : FeeRow α)
            ∈ pivotSource (feeRows ops ctrl pl) :=
        List.mem_filter.mpr ⟨hfee, by simp [hpc]⟩
      exact List.mem_filterMap.mpr ⟨_, hps, by simp [hpc]⟩

/-- C3 counterexample: in a session whose reference table holds the (non-null)
account `00000123` and whose single snapshot row holds the different account
`00000456`, the report `calculate_daily_fees` returns has `00000123` in its
index zero times, not once: the reference-only account's date key is null and
the pivot's grouping drops it. -/
theorem outer_join_completeness_cex :
    "00000123" ∈ ([⟨"00000123", some 2⟩] : List (ControlRow ℝ)).map
        ControlRow.conta
    ∧ (calculate_daily_fees opsR
        ⟨some [⟨"00000123", some 2⟩],
         [[⟨some "00000456", some 100, ⟨2026, 3, 1⟩⟩]]⟩).map
        (fun rep => (rep.rows.map ReportRow.conta).count "00000123")
      = some 0 := by
  constructor
  · decide
  · decide

/-- C3 amended: every non-null account identifier appearing in at least one
accumulated snapshot row appears in the index of the report exactly once;
an account present only in the reference table does not appear at all,
because its joined rows carry a null date key, which the pivot's grouping
drops.  The second conjunct ties the report `calculate_daily_fees` returns to
`feeReport` over the concatenated snapshots. -/
theorem pivot_index_completeness :
    (∀ {α : Type} (ops : Ops α) (ctrl : List (ControlRow α))
        (pl : List (PlRow α)) (c : String),
      ((feeReport ops ctrl pl).rows.map ReportRow.conta).count c
        = if c ∈ pl.filterMap PlRow.conta then 1 else 0)
    ∧ (∀ {α : Type} (ops : Ops α) (s : CalcState α)
        (ctrl : List (ControlRow α)),
        s.planilha_controle = some ctrl → ctrl ≠ [] → s.pl_data ≠ [] →
        calculate_daily_fees ops s
          = some (feeReport ops ctrl s.pl_data.flatten)) := by
  constructor
  · intro α ops ctrl pl c
    have hmap : (feeReport ops ctrl pl).rows.map ReportRow.conta
        = reportIndex (feeRows ops ctrl pl) := by
      unfold feeReport
      rw [List.map_map]
      exact List.map_id'' (fun x => rfl) _
    rw [hmap]
    unfold reportIndex
    by_cases h : c ∈ pl.filterMap PlRow.conta
    · rw [if_pos h]
      exact List.count_eq_one_of_mem (List.nodup_dedup _)
        (List.mem_dedup.mpr ((mem_pivot_conta_iff ops ctrl pl c).mpr h))
    · rw [if_neg h]
      exact List.count_eq_zero_of_not_mem
        (fun hc => h ((mem_pivot_conta_iff ops ctrl pl c).mp
          (List.mem_dedup.mp hc)))
  · intro α ops s ctrl h1 h2 h3
    simp [calculate_daily_fees, h1, List.isEmpty_iff, h2, h3]

theorem pivot_index_completeness_witness :
    ((feeReport opsR [⟨"00000123", some 2⟩]
        [⟨some "00000456", some 100, ⟨2026, 3, 1⟩⟩]).rows.map
        ReportRow.conta).count "00000456"
      = (if "00000456" ∈ ([⟨some "00000456", some 100, ⟨2026, 3, 1⟩⟩] :
            List (PlRow ℝ)).filterMap PlRow.conta then 1 else 0)
    ∧ calculate_daily_fees opsR
        ⟨some [⟨"00000123", some 2⟩],
         [[⟨some "00000456", some 100, ⟨2026, 3, 1⟩⟩]]⟩
      = some (feeReport opsR [⟨"00000123", some 2⟩]
          ([[⟨some "00000456", some 100, ⟨2026, 3, 1⟩⟩]] :
            List (List (PlRow ℝ))).flatten) :=
  ⟨pivot_index_completeness.1 opsR [⟨"00000123", some 2⟩]
     [⟨some "00000456", some 100, ⟨2026, 3, 1⟩⟩] "00000456",
   pivot_index_completeness.2 opsR
     ⟨some [⟨"00000123", some 2⟩],
      [[⟨some "00000456", some 100, ⟨2026, 3, 1⟩⟩]]⟩
     [⟨"00000123", some 2⟩] rfl (List.cons_ne_nil _ _) (List.cons_ne_nil _ _)⟩

end BTG
